import Mathlib

/-!
Shallow embedding of the TMDB movie-list front end, covering the
data-access module `src/lib/appwrite.ts` (the trending-counter upsert
`updateSearchCount` and the trending fetch `getTrendingMovies`) and the
`MovieCard` display component, together with the shared type
declarations from `MoviesType.ts`.

The remote document database is modelled as a list of documents; each
remote call either succeeds (acting on that list) or throws, as chosen
by a `RemoteBehavior` value.  JavaScript semantics that the source code
relies on are made explicit: truthiness of strings and numbers (empty
string, `null`, `undefined` and `0` are falsy), template-literal
interpolation of `null` as the text `null`, `Number.prototype.toFixed(1)`
as rounding to one decimal, and `String.prototype.split` indexing.
-/

/-- Movie record, from `MoviesType.ts`.  Numeric fields are modelled as
rationals.  `poster_path` and `backdrop_path` are declared
`string | null`, hence `Option String`.  `vote_average` is declared
`number`, but at runtime the field may also be absent (`undefined`) and
the card component guards for that, so the runtime value is modelled as
`Option ℚ` with `none` for an absent field. -/
structure Movie where
  id : Int
  title : String
  adult : Bool
  backdrop_path : Option String
  genre_ids : List Int
  original_language : String
  original_title : String
  overview : String
  popularity : ℚ
  poster_path : Option String
  release_date : String
  video : Bool
  vote_average : Option ℚ
  vote_count : Int
deriving DecidableEq, Repr

/-- TrendingMovies record, from `MoviesType.ts`: the read projection of a
counter document used for display. -/
structure TrendingMovies where
  id : Int
  count : Int
  poster_url : String
  searchTerm : String
  title : String
deriving DecidableEq, Repr

/-- A counter document as stored in the hosted database collection.
`docId` is the Appwrite `$id`.  `lastSearchedMovie` is written only by
the update path of `updateSearchCount`; a freshly created document does
not have it. -/
structure Doc where
  docId : String
  searchTerm : String
  count : Int
  movie_id : Int
  poster_url : String
  title : String
  lastSearchedMovie : Option Movie
deriving DecidableEq, Repr

/-- Errors thrown by the remote database calls. -/
inductive DBErr where
  | listFailed
  | updateFailed
  | createFailed
deriving DecidableEq, Repr

/-- Chooses, for each kind of remote call, whether it throws. -/
structure RemoteBehavior where
  listFails : Bool
  updateFails : Bool
  createFails : Bool
deriving DecidableEq, Repr

/-- The behavior in which every remote call succeeds. -/
def noFail : RemoteBehavior := { listFails := false, updateFails := false, createFails := false }

/-- An entry written to the diagnostic channel by `console.error`. -/
inductive LogEntry where
  | consoleError (msg : String) (e : DBErr)
deriving DecidableEq, Repr

/-- Template-literal interpolation of a `string | null` value: JavaScript
renders `null` inside a template literal as the text `null`. -/
def jsTemplateOpt : Option String → String
  | none => "null"
  | some s => s

/-- The TMDB poster image base URL used by both `appwrite.ts` and
`MovieCard`. -/
def tmdbImageBase : String := "https://image.tmdb.org/t/p/w500"

/-- Embedding of `databases.listDocuments(DATABASE_ID, COLLECTION_ID,
[Query.equal("searchTerm", searchTerm)])`: on success, the documents of
the collection whose `searchTerm` field equals the given term. -/
def listDocumentsByTerm (b : RemoteBehavior) (st : List Doc) (term : String) :
    Except DBErr (List Doc) :=
  if b.listFails then .error .listFailed
  else .ok (st.filter (fun d => d.searchTerm == term))

/-- Embedding of `databases.updateDocument(DATABASE_ID, COLLECTION_ID,
doc.$id, { count: ..., lastSearchedMovie: movie })`: on success, the
documents whose `$id` matches get exactly those two fields overwritten. -/
def updateDocumentCount (b : RemoteBehavior) (st : List Doc) (targetId : String)
    (newCount : Int) (movie : Movie) : Except DBErr (List Doc) :=
  if b.updateFails then .error .updateFailed
  else .ok (st.map (fun d =>
    if d.docId == targetId then
      { d with count := newCount, lastSearchedMovie := some movie }
    else d))

/-- Embedding of `databases.createDocument(DATABASE_ID, COLLECTION_ID,
ID.unique(), { searchTerm, count: 1, movie_id: movie.id, poster_url:
`https://image.tmdb.org/t/p/w500${movie.poster_path}`, title:
movie.title })`, with the fresh `ID.unique()` passed in as `newId`. -/
def createCounterDocument (b : RemoteBehavior) (st : List Doc) (newId : String)
    (term : String) (movie : Movie) : Except DBErr (List Doc) :=
  if b.createFails then .error .createFailed
  else .ok (st ++ [{ docId := newId
                     searchTerm := term
                     count := 1
                     movie_id := movie.id
                     poster_url := tmdbImageBase ++ jsTemplateOpt movie.poster_path
                     title := movie.title
                     lastSearchedMovie := none }])

/-- The `try` block of `updateSearchCount`: list the documents for the
search term; if the result is non-empty take `documents[0]` and update
its count and last-searched movie, else create a fresh counter
document. -/
def updateSearchCountBody (b : RemoteBehavior) (newId : String) (st : List Doc)
    (searchTerm : String) (movie : Movie) : Except DBErr (List Doc) := do
  let docs ← listDocumentsByTerm b st searchTerm
  match docs with
  | doc :: _ => updateDocumentCount b st doc.docId (doc.count + 1) movie
  | [] => createCounterDocument b st newId searchTerm movie

/-- Embedding of `updateSearchCount`, `try`/`catch` included: a thrown
error is caught and logged with `console.error("Error updating search
count:", error)` and the function returns normally either way (the
outer `Except` layer is what the caller could observe, so the claim that
no exception propagates is the claim that the result is always `.ok`). -/
def updateSearchCount (b : RemoteBehavior) (newId : String) (st : List Doc)
    (searchTerm : String) (movie : Movie) :
    Except DBErr (List Doc × List LogEntry) :=
  match updateSearchCountBody b newId st searchTerm movie with
  | .ok st2 => .ok (st2, [])
  | .error e => .ok (st, [.consoleError "Error updating search count:" e])

/-- Ordering used by the trending fetch: descending document count. -/
def countGE (a b : Doc) : Prop := b.count ≤ a.count

instance : DecidableRel countGE := fun a b => inferInstanceAs (Decidable (b.count ≤ a.count))

instance : IsTotal Doc countGE := ⟨fun a b => (le_total a.count b.count).symm⟩

instance : IsTrans Doc countGE := ⟨fun _ _ _ h₁ h₂ => le_trans h₂ h₁⟩

/-- Embedding of `databases.listDocuments(DATABASE_ID, COLLECTION_ID,
[Query.orderDesc("count"), Query.limit(5)])`: on success, the stored
documents sorted by descending count, truncated to the first 5. -/
def listDocumentsTrending (b : RemoteBehavior) (st : List Doc) :
    Except DBErr (List Doc) :=
  if b.listFails then .error .listFailed
  else .ok ((st.insertionSort countGE).take 5)

/-- The per-document mapping in `getTrendingMovies`: storage schema to
display schema, `movie_id` mapped to `id`, the rest copied through. -/
def toTrending (d : Doc) : TrendingMovies :=
  { id := d.movie_id
    count := d.count
    poster_url := d.poster_url
    searchTerm := d.searchTerm
    title := d.title }

/-- Embedding of `getTrendingMovies`: maps the fetched documents to the
display schema; any thrown error is caught, logged and converted to the
empty list. -/
def getTrendingMovies (b : RemoteBehavior) (st : List Doc) : List TrendingMovies :=
  match listDocumentsTrending b st with
  | .ok docs => docs.map toTrending
  | .error _ => []

/-- Tenths digit count of a non-negative rational: `⌊10q + 1/2⌋`, the
numerator of `q` rounded to the nearest tenth (ties up).  With
`q = num/den` this is `⌊(20num + den) / (2den)⌋`. -/
def roundTenths (q : ℚ) : Nat :=
  (Int.fdiv (20 * q.num + (q.den : Int)) (2 * (q.den : Int))).toNat

/-- JavaScript `Number.prototype.toFixed(1)` on a rational: round to the
nearest tenth, ties away from zero, and print with one digit after the
decimal point. -/
def toFixed1 (q : ℚ) : String :=
  if q < 0 then
    let n : Nat := roundTenths (-q)
    "-" ++ toString (n / 10) ++ "." ++ toString (n % 10)
  else
    let n : Nat := roundTenths q
    toString (n / 10) ++ "." ++ toString (n % 10)

/-- JavaScript `s.split(sep)[0]` for a single-character separator: the
fragment of `s` before the first occurrence of `sep` (all of `s` when
`sep` does not occur). -/
def jsSplitHead (s : String) (sep : Char) : String :=
  (s.toList.takeWhile (fun c => c ≠ sep)).asString

/-- The data displayed by one rendered `MovieCard`. -/
structure MovieCardView where
  imgSrc : String
  imgAlt : String
  titleText : String
  ratingText : String
  langText : String
  yearText : String
deriving DecidableEq, Repr

/-- Embedding of the `MovieCard` component: the strings it renders for a
given movie.  The three conditionals mirror the JSX ternaries, with
JavaScript truthiness made explicit: `poster_path ? ... : ...` is falsy
for `null` and for the empty string, `vote_average ? ... : ...` is falsy
for an absent value and for `0`, and `release_date ? ... : ...` is falsy
for the empty string. -/
def MovieCard (m : Movie) : MovieCardView :=
  { imgSrc :=
      match m.poster_path with
      | some p => if p = "" then "/no-movie.png" else tmdbImageBase ++ p
      | none => "/no-movie.png"
    imgAlt := m.title
    titleText := m.title
    ratingText :=
      match m.vote_average with
      | some v => if v = 0 then "N/A" else toFixed1 v
      | none => "N/A"
    langText := m.original_language
    yearText :=
      if m.release_date = "" then "N/A" else jsSplitHead m.release_date '-' }

/-- The rational 7.6, built in lowest terms so that it evaluates by
kernel reduction. -/
def ratSevenPointSix : ℚ := ⟨38, 5, by norm_num, by norm_num⟩

/-- The rational 7.649 in lowest terms. -/
def ratLowTenth : ℚ := ⟨7649, 1000, by norm_num, by norm_num⟩

/-- The rational 7.651 in lowest terms. -/
def ratHighTenth : ℚ := ⟨7651, 1000, by norm_num, by norm_num⟩

/-- The document created by the create path for term `t`, movie `m` and
fresh id `newId`. -/
def createdDoc (newId t : String) (m : Movie) : Doc :=
  { docId := newId
    searchTerm := t
    count := 1
    movie_id := m.id
    poster_url := tmdbImageBase ++ jsTemplateOpt m.poster_path
    title := m.title
    lastSearchedMovie := none }

/-- A concrete movie with a poster, rating 7.6 and release date
1995-09-22, used to instantiate theorems with hypotheses. -/
def movieSeven : Movie :=
  { id := 2
    title := "Seven"
    adult := false
    backdrop_path := none
    genre_ids := [18, 80]
    original_language := "en"
    original_title := "Seven"
    overview := ""
    popularity := 0
    poster_path := some "/seven.jpg"
    release_date := "1995-09-22"
    video := false
    vote_average := some ratSevenPointSix
    vote_count := 100 }

/-- A concrete movie with a null poster path, a zero rating and an empty
release date, used to instantiate theorems with hypotheses. -/
def movieBare : Movie :=
  { id := 3
    title := "Ghost"
    adult := false
    backdrop_path := none
    genre_ids := []
    original_language := "ja"
    original_title := "Ghost"
    overview := ""
    popularity := 0
    poster_path := none
    release_date := ""
    video := false
    vote_average := some 0
    vote_count := 0 }

/-- A concrete stored counter document used to instantiate theorems. -/
def docBatman : Doc :=
  { docId := "a1"
    searchTerm := "batman"
    count := 3
    movie_id := 42
    poster_url := "https://image.tmdb.org/t/p/w500/batman.jpg"
    title := "Batman"
    lastSearchedMovie := none }

example : toFixed1 ratSevenPointSix = "7.6" := by decide
example : toFixed1 ratLowTenth = "7.6" := by decide
example : toFixed1 ratHighTenth = "7.7" := by decide
example : toFixed1 0 = "0.0" := by decide
example : jsSplitHead "2021-05-04" '-' = "2021" := by decide
example : jsSplitHead "2021" '-' = "2021" := by decide

/-!
Helper lemmas shared by the claim theorems.
-/

/-- If no stored document has the given search term, the equality query
returns the empty list. -/
lemma filter_term_eq_nil (st : List Doc) (t : String)
    (hno : ∀ d ∈ st, d.searchTerm ≠ t) :
    st.filter (fun d => d.searchTerm == t) = [] := by
  rw [List.filter_eq_nil_iff]
  intro d hd
  simpa using hno d hd

/-- On a store with no document for the search term and with no remote
failure, `updateSearchCount` appends exactly the created document and
logs nothing. -/
lemma updateSearchCount_missing_eq (newId : String) (st : List Doc)
    (t : String) (m : Movie) (hno : ∀ d ∈ st, d.searchTerm ≠ t) :
    updateSearchCount noFail newId st t m = .ok (st ++ [createdDoc newId t m], []) := by
  have hf := filter_term_eq_nil st t hno
  simp only [updateSearchCount, updateSearchCountBody, listDocumentsByTerm,
    createCounterDocument, noFail, hf, createdDoc]
  rfl

/-- C1: for every search term with no existing document in the
collection, invoking `updateSearchCount` (with all remote calls
succeeding) creates exactly one new document whose fields are the search
term, count = 1, the movie id as `movie_id`, the movie poster URL as
`poster_url`, and the movie title as `title`. -/
theorem updateSearchCount_creates_on_missing
    (newId : String) (st : List Doc) (t : String) (m : Movie)
    (hno : ∀ d ∈ st, d.searchTerm ≠ t) :
    ∃ st2, updateSearchCount noFail newId st t m = .ok (st2, []) ∧
      st2 = st ++ [{ docId := newId
                     searchTerm := t
                     count := 1
                     movie_id := m.id
                     poster_url := "https://image.tmdb.org/t/p/w500" ++ jsTemplateOpt m.poster_path
                     title := m.title
                     lastSearchedMovie := none }] ∧
      st2.length = st.length + 1 := by
  refine ⟨st ++ [createdDoc newId t m], updateSearchCount_missing_eq newId st t m hno, rfl, ?_⟩
  simp

/-- Witness for C1: on the empty store, searching for batman with a
concrete movie creates the single expected document. -/
theorem updateSearchCount_creates_on_missing_witness :
    updateSearchCount noFail "doc1" [] "batman" movieSeven =
      .ok ([{ docId := "doc1"
              searchTerm := "batman"
              count := 1
              movie_id := 2
              poster_url := "https://image.tmdb.org/t/p/w500/seven.jpg"
              title := "Seven"
              lastSearchedMovie := none }], []) := by
  obtain ⟨st2, h1, h2, _⟩ :=
    updateSearchCount_creates_on_missing "doc1" [] "batman" movieSeven (by simp)
  rw [h1, h2]
  rfl

/-- C2: for every search term with exactly one existing document in the
collection, invoking `updateSearchCount` (with all remote calls
succeeding) rewrites the store so that the matched document gets count
incremented by exactly 1, and no second document is created (the store
keeps its length). -/
theorem updateSearchCount_increments_on_existing
    (newId : String) (st : List Doc) (t : String) (m : Movie) (d0 : Doc)
    (hone : st.filter (fun d => d.searchTerm == t) = [d0]) :
    d0 ∈ st ∧
    ∃ st2, updateSearchCount noFail newId st t m = .ok (st2, []) ∧
      st2 = st.map (fun d =>
        if d.docId == d0.docId then
          { d with count := d0.count + 1, lastSearchedMovie := some m }
        else d) ∧
      st2.length = st.length := by
  constructor
  · refine List.mem_of_mem_filter (p := fun d => d.searchTerm == t) ?_
    rw [hone]
    exact List.mem_singleton_self d0
  · refine ⟨_, ?_, rfl, List.length_map _ _⟩
    simp only [updateSearchCount, updateSearchCountBody, listDocumentsByTerm,
      updateDocumentCount, noFail, hone]
    rfl

/-- Witness for C2: on a store holding one batman document with count 3,
a new batman search bumps the count to 4 and creates nothing. -/
theorem updateSearchCount_increments_on_existing_witness :
    docBatman ∈ [docBatman] ∧
    ∃ st2, updateSearchCount noFail "doc2" [docBatman] "batman" movieSeven = .ok (st2, []) ∧
      st2 = [docBatman].map (fun d =>
        if d.docId == docBatman.docId then
          { d with count := docBatman.count + 1, lastSearchedMovie := some movieSeven }
        else d) ∧
      st2.length = [docBatman].length :=
  updateSearchCount_increments_on_existing "doc2" [docBatman] "batman" movieSeven docBatman
    (by decide)

/-- C3: for every input and every remote behavior, `updateSearchCount`
returns normally: either the try block succeeded and nothing is logged,
or the thrown error is caught and logged with the
`Error updating search count:` message; in both cases the overall
result is `.ok`, so no exception reaches the caller. -/
theorem updateSearchCount_catches_failures
    (b : RemoteBehavior) (newId : String) (st : List Doc) (t : String) (m : Movie) :
    (∃ st2, updateSearchCountBody b newId st t m = .ok st2 ∧
        updateSearchCount b newId st t m = .ok (st2, [])) ∨
    (∃ e, updateSearchCountBody b newId st t m = .error e ∧
        updateSearchCount b newId st t m =
          .ok (st, [.consoleError "Error updating search count:" e])) := by
  cases h : updateSearchCountBody b newId st t m with
  | ok st2 => exact Or.inl ⟨st2, rfl, by simp [updateSearchCount, h]⟩
  | error e => exact Or.inr ⟨e, rfl, by simp [updateSearchCount, h]⟩

/-- C5: whenever the trending listing throws, `getTrendingMovies`
returns the empty list instead of propagating the exception, whatever
the store holds and whatever the other remote calls would do. -/
theorem getTrendingMovies_empty_on_listing_error (u c : Bool) (st : List Doc) :
    getTrendingMovies { listFails := true, updateFails := u, createFails := c } st = [] := by
  simp [getTrendingMovies, listDocumentsTrending]

/-- C6: on the update path of `updateSearchCount` (some document for the
search term exists) with no remote failure, the store keeps its length
and every document keeps its `searchTerm`, `movie_id`, `poster_url` and
`title` fields; only `count` and `lastSearchedMovie` can change. -/
theorem updateSearchCount_update_path_frame
    (newId : String) (st : List Doc) (t : String) (m : Movie)
    (hex : st.filter (fun d => d.searchTerm == t) ≠ []) :
    ∃ st2, updateSearchCount noFail newId st t m = .ok (st2, []) ∧
      st2.length = st.length ∧
      st2.map Doc.searchTerm = st.map Doc.searchTerm ∧
      st2.map Doc.movie_id = st.map Doc.movie_id ∧
      st2.map Doc.poster_url = st.map Doc.poster_url ∧
      st2.map Doc.title = st.map Doc.title := by
  obtain ⟨d0, rest, hcons⟩ := List.exists_cons_of_ne_nil hex
  refine ⟨st.map (fun d =>
      if d.docId == d0.docId then
        { d with count := d0.count + 1, lastSearchedMovie := some m }
      else d), ?_, List.length_map _ _, ?_, ?_, ?_, ?_⟩
  · simp only [updateSearchCount, updateSearchCountBody, listDocumentsByTerm,
      updateDocumentCount, noFail, hcons]
    rfl
  all_goals
    rw [List.map_map]
    apply List.map_congr_left
    intro d _
    by_cases hd : d.docId == d0.docId <;> simp [hd, Function.comp]

/-- Witness for C6: on a store holding one batman document, a batman
search keeps length and all four frame fields. -/
theorem updateSearchCount_update_path_frame_witness :
    ∃ st2, updateSearchCount noFail "doc3" [docBatman] "batman" movieSeven = .ok (st2, []) ∧
      st2.length = [docBatman].length ∧
      st2.map Doc.searchTerm = [docBatman].map Doc.searchTerm ∧
      st2.map Doc.movie_id = [docBatman].map Doc.movie_id ∧
      st2.map Doc.poster_url = [docBatman].map Doc.poster_url ∧
      st2.map Doc.title = [docBatman].map Doc.title :=
  updateSearchCount_update_path_frame "doc3" [docBatman] "batman" movieSeven (by decide)

/-- C10: on the create path, a movie whose poster path is null is stored
with the literal poster URL `https://image.tmdb.org/t/p/w500null` (the
template literal interpolates `null` as text, with no placeholder
fallback), although `MovieCard` renders the placeholder image for the
same movie. -/
theorem updateSearchCount_null_poster_literal
    (newId : String) (st : List Doc) (t : String) (m : Movie)
    (hp : m.poster_path = none) (hno : ∀ d ∈ st, d.searchTerm ≠ t) :
    updateSearchCount noFail newId st t m =
      .ok (st ++ [{ docId := newId
                    searchTerm := t
                    count := 1
                    movie_id := m.id
                    poster_url := "https://image.tmdb.org/t/p/w500null"
                    title := m.title
                    lastSearchedMovie := none }], []) ∧
    (MovieCard m).imgSrc = "/no-movie.png" := by
  constructor
  · rw [updateSearchCount_missing_eq newId st t m hno]
    unfold createdDoc
    rw [hp]
    rfl
  · simp [MovieCard, hp]

/-- Witness for C10: creating the counter document for a concrete movie
with a null poster path stores the `w500null` URL while the card shows
the placeholder. -/
theorem updateSearchCount_null_poster_literal_witness :
    updateSearchCount noFail "doc4" [] "ghost" movieBare =
      .ok ([{ docId := "doc4"
              searchTerm := "ghost"
              count := 1
              movie_id := 3
              poster_url := "https://image.tmdb.org/t/p/w500null"
              title := "Ghost"
              lastSearchedMovie := none }], []) ∧
    (MovieCard movieBare).imgSrc = "/no-movie.png" :=
  updateSearchCount_null_poster_literal "doc4" [] "ghost" movieBare rfl (by simp)

/-- C4: with the remote listing succeeding, `getTrendingMovies` returns
at most 5 entries, in non-increasing count order, and each entry is a
stored document mapped to the display schema by `toTrending` (id taken
from `movie_id`, the other fields copied through). -/
theorem getTrendingMovies_success_shape (st : List Doc) :
    (getTrendingMovies noFail st).length ≤ 5 ∧
    List.Pairwise (fun a b : TrendingMovies => b.count ≤ a.count)
      (getTrendingMovies noFail st) ∧
    ∀ e ∈ getTrendingMovies noFail st, ∃ d ∈ st, e = toTrending d := by
  have hg : getTrendingMovies noFail st =
      ((st.insertionSort countGE).take 5).map toTrending := by
    simp [getTrendingMovies, listDocumentsTrending, noFail]
  refine ⟨?_, ?_, ?_⟩
  · rw [hg, List.length_map, List.length_take]
    exact min_le_left _ _
  · rw [hg, List.pairwise_map]
    have hs : List.Pairwise countGE (st.insertionSort countGE) :=
      List.sorted_insertionSort countGE st
    have ht : List.Pairwise countGE ((st.insertionSort countGE).take 5) :=
      List.Pairwise.sublist (List.take_sublist _ _) hs
    exact ht.imp (fun h => h)
  · intro e he
    rw [hg] at he
    obtain ⟨d, hd, rfl⟩ := List.mem_map.mp he
    exact ⟨d, (List.perm_insertionSort countGE st).subset (List.take_subset _ _ hd), rfl⟩

/-- Witness for C4: instantiation on a concrete one-document store. -/
theorem getTrendingMovies_success_shape_witness :
    (getTrendingMovies noFail [docBatman]).length ≤ 5 ∧
    List.Pairwise (fun a b : TrendingMovies => b.count ≤ a.count)
      (getTrendingMovies noFail [docBatman]) ∧
    ∀ e ∈ getTrendingMovies noFail [docBatman], ∃ d ∈ [docBatman], e = toTrending d :=
  getTrendingMovies_success_shape [docBatman]

/-- C7: a movie with an absent or zero `vote_average` is rendered with
the rating text `N/A`; a nonzero rating is rendered by `toFixed1`, the
embedding of rounding to one decimal place. -/
theorem movieCard_rating_display (m : Movie) :
    ((m.vote_average = none ∨ m.vote_average = some 0) →
      (MovieCard m).ratingText = "N/A") ∧
    (∀ v, m.vote_average = some v → v ≠ 0 → (MovieCard m).ratingText = toFixed1 v) := by
  constructor
  · rintro (h | h) <;> simp [MovieCard, h]
  · intro v hv hne
    simp [MovieCard, hv, hne]

/-- Witness for C7: a zero-rating movie shows `N/A`; a movie rated 7.6
shows the rounded rating, which evaluates to the text 7.6. -/
theorem movieCard_rating_display_witness :
    (MovieCard movieBare).ratingText = "N/A" ∧
    (MovieCard movieSeven).ratingText = toFixed1 ratSevenPointSix ∧
    toFixed1 ratSevenPointSix = "7.6" :=
  ⟨(movieCard_rating_display movieBare).1 (Or.inr rfl),
   (movieCard_rating_display movieSeven).2 ratSevenPointSix rfl (by decide),
   by decide⟩

/-- C8: a movie with a null poster path is rendered with the placeholder
image source; a non-null, non-empty poster path is rendered with the
TMDB base URL followed by the path. -/
theorem movieCard_poster_display (m : Movie) :
    (m.poster_path = none → (MovieCard m).imgSrc = "/no-movie.png") ∧
    (∀ p, m.poster_path = some p → p ≠ "" →
      (MovieCard m).imgSrc = "https://image.tmdb.org/t/p/w500" ++ p) := by
  constructor
  · intro h
    simp [MovieCard, h]
  · intro p hp hne
    simp [MovieCard, hp, hne, tmdbImageBase]

/-- Witness for C8: the poster-less movie renders the placeholder and
the concrete poster path is appended to the TMDB base URL. -/
theorem movieCard_poster_display_witness :
    (MovieCard movieBare).imgSrc = "/no-movie.png" ∧
    (MovieCard movieSeven).imgSrc = "https://image.tmdb.org/t/p/w500" ++ "/seven.jpg" :=
  ⟨(movieCard_poster_display movieBare).1 rfl,
   (movieCard_poster_display movieSeven).2 "/seven.jpg" rfl (by decide)⟩

/-- If every element of the left list satisfies the predicate and the
middle element does not, `takeWhile` returns exactly the left list. -/
lemma takeWhile_append_of_stop {α : Type} (p : α → Bool) (l₁ l₂ : List α) (a : α)
    (h₁ : ∀ c ∈ l₁, p c = true) (h₂ : p a = false) :
    (l₁ ++ a :: l₂).takeWhile p = l₁ := by
  induction l₁ with
  | nil => simp [List.takeWhile_cons, h₂]
  | cons x xs ih =>
    have hx : p x = true := h₁ x (List.mem_cons_self x xs)
    simp [List.takeWhile_cons, hx,
      ih (fun c hc => h₁ c (List.mem_cons_of_mem x hc))]

/-- The JavaScript split head of `pre ++ "-" ++ post` is `pre` when
`pre` holds no dash. -/
lemma jsSplitHead_append (pre post : String) (hpre : ∀ c ∈ pre.toList, c ≠ '-') :
    jsSplitHead (pre ++ "-" ++ post) '-' = pre := by
  unfold jsSplitHead
  have hdata : (pre ++ "-" ++ post).toList = pre.toList ++ '-' :: post.toList := by
    simp [String.toList, String.data_append]
  rw [hdata, takeWhile_append_of_stop _ pre.toList post.toList '-'
    (fun c hc => by simpa using hpre c hc) (by simp)]
  rfl

/-- C9: a movie with an empty release date shows the year `N/A`; a
release date of the form `pre-post` with no dash in `pre` shows exactly
`pre`, the substring before the first dash. -/
theorem movieCard_year_display (m : Movie) :
    (m.release_date = "" → (MovieCard m).yearText = "N/A") ∧
    (∀ pre post, m.release_date = pre ++ "-" ++ post →
      (∀ c ∈ pre.toList, c ≠ '-') → (MovieCard m).yearText = pre) := by
  constructor
  · intro h
    simp [MovieCard, h]
  · intro pre post hdate hpre
    have hdata : (pre ++ "-" ++ post).toList = pre.toList ++ '-' :: post.toList := by
      simp [String.toList, String.data_append]
    have hne : m.release_date ≠ "" := by
      rw [hdate]
      intro hc
      have hl := congrArg String.toList hc
      rw [hdata] at hl
      simp at hl
    have hy : (MovieCard m).yearText = jsSplitHead m.release_date '-' := by
      simp [MovieCard, hne]
    rw [hy, hdate]
    exact jsSplitHead_append pre post hpre

/-- Witness for C9: an empty release date shows `N/A`; the release date
1995-09-22 shows the year 1995. -/
theorem movieCard_year_display_witness :
    (MovieCard movieBare).yearText = "N/A" ∧
    (MovieCard movieSeven).yearText = "1995" :=
  ⟨(movieCard_year_display movieBare).1 rfl,
   (movieCard_year_display movieSeven).2 "1995" "09-22" (by decide) (by decide)⟩
